import Mathlib

/-!
Shallow embedding of `src/main.py` (chatbot-triagem-medica): a FastAPI
triage service whose per-session record (`ficha_de_atendimento`) is mutated
by four endpoints.  The external Gemini model, together with `json.loads`
applied to the normalized text, is modelled as an oracle producing either a
raised exception, a JSON parse failure, or a parsed JSON value.
-/

namespace Triagem

/-- Role of a chat turn, `Literal["user", "model"]` in `ChatMessage`. -/
inductive Role where
  | user
  | model
deriving DecidableEq, Repr

/-- One entry of `chat_history`.  In the source each entry is
`{"role": r, "parts": [{"text": t}]}`; every entry this code ever appends
has exactly one part, so the text of the single part is stored directly. -/
structure ChatTurn where
  role : Role
  text : String
deriving DecidableEq, Repr

/-- `conversation_status`: starts `"ongoing"`, may become `"final"`. -/
inductive ConversationStatus where
  | ongoing
  | final
deriving DecidableEq, Repr

/-- The fixed synthetic smartwatch reading set
(`dados_fisiologicos_artificiais` in `obter_dados_smartwatch`). -/
structure DadosFisiologicos where
  altura_cm : Int
  peso_kg : Int
  pressao_arterial_sistolica : Int
  pressao_arterial_diastolica : Int
  oxigenacao_sangue_percentual : Int
  nivel_estresse : String
deriving DecidableEq, Repr

def dados_fisiologicos_artificiais : DadosFisiologicos :=
  { altura_cm := 175
    peso_kg := 70
    pressao_arterial_sistolica := 120
    pressao_arterial_diastolica := 80
    oxigenacao_sangue_percentual := 98
    nivel_estresse := "Baixo" }

/-- A session record of `ficha_de_atendimento_db`.  `dados_fisiologicos`
is `none` while the dict is still `{}`.  `especialidade_medica` and
`orientacao_ao_medico` are `Option String` because the conversational
path assigns the pydantic fields, which may be Python `None`; the record
starts with the empty string (`some ""`). -/
structure Ficha where
  session_id : String
  nome_completo : String
  endereco : String
  idade : Int
  dados_fisiologicos : Option DadosFisiologicos
  queixa_paciente : String
  especialidade_medica : Option String
  orientacao_ao_medico : Option String
  chat_history : List ChatTurn
  conversation_status : ConversationStatus
deriving DecidableEq, Repr

/-- `POST /api/v1/iniciar_atendimento`: the fresh record inserted for a new
session (the uuid generation is abstracted into the `session_id` input). -/
def iniciar_atendimento (session_id nome_completo endereco : String)
    (idade : Int) : Ficha :=
  { session_id := session_id
    nome_completo := nome_completo
    endereco := endereco
    idade := idade
    dados_fisiologicos := none
    queixa_paciente := ""
    especialidade_medica := some ""
    orientacao_ao_medico := some ""
    chat_history := []
    conversation_status := ConversationStatus.ongoing }

/-- Parsed JSON values, the possible outputs of `json.loads`. -/
inductive Json where
  | null
  | bool (b : Bool)
  | num (n : Int)
  | str (s : String)
  | arr (xs : List Json)
  | obj (fields : List (String × Json))

/-- Key lookup in a parsed JSON object (keys from `json.loads` are unique,
so first match suffices). -/
def lookupField (fields : List (String × Json)) (k : String) : Option Json :=
  (fields.find? (fun p => p.1 == k)).map (fun p => p.2)

/-- Pydantic validation of the `status` field:
`Literal["ongoing", "final"]`, required. -/
def validateStatus : Option Json → Option ConversationStatus
  | some (Json.str s) =>
    if s = "ongoing" then some ConversationStatus.ongoing
    else if s = "final" then some ConversationStatus.final
    else none
  | _ => none

/-- Pydantic validation of a required `str` field. -/
def validateStr : Option Json → Option String
  | some (Json.str s) => some s
  | _ => none

/-- Pydantic validation of a `Union[str, None] = None` field: absent or
JSON null becomes `None`; a string is kept; anything else is rejected. -/
def validateOptStr : Option Json → Option (Option String)
  | none => some none
  | some Json.null => some none
  | some (Json.str s) => some (some s)
  | some _ => none

/-- The validated `ConversationalGeminiResponse` pydantic model. -/
structure ConversationalGeminiResponse where
  status : ConversationStatus
  bot_message : String
  especialidade_medica : Option String := none
  orientacao_ao_medico : Option String := none
deriving DecidableEq, Repr

/-- `ConversationalGeminiResponse(**parsed)`: succeeds on a JSON object
whose `status` is the literal `"ongoing"` or `"final"`, whose
`bot_message` is a string, and whose `especialidade_medica` /
`orientacao_ao_medico` are each absent, null, or a string (extra keys are
ignored, the pydantic default).  Any other shape raises a validation error. -/
def ConversationalGeminiResponse.validate :
    Json → Option ConversationalGeminiResponse
  | Json.obj fields =>
    match validateStatus (lookupField fields "status"),
        validateStr (lookupField fields "bot_message"),
        validateOptStr (lookupField fields "especialidade_medica"),
        validateOptStr (lookupField fields "orientacao_ao_medico") with
    | some st, some bm, some esp, some ori =>
      some { status := st, bot_message := bm,
             especialidade_medica := esp, orientacao_ao_medico := ori }
    | _, _, _, _ => none
  | _ => none

/-- The validated single-shot `GeminiResponse` pydantic model. -/
structure GeminiResponse where
  especialidade_medica : String
  orientacao_ao_medico : String
deriving DecidableEq, Repr

/-- `GeminiResponse(**parsed)`: both fields required strings. -/
def GeminiResponse.validate : Json → Option GeminiResponse
  | Json.obj fields =>
    match validateStr (lookupField fields "especialidade_medica"),
        validateStr (lookupField fields "orientacao_ao_medico") with
    | some esp, some ori =>
      some { especialidade_medica := esp, orientacao_ao_medico := ori }
    | _, _ => none
  | _ => none

/-- Python `str.isspace` on the ASCII whitespace characters recognized by
`str.strip()`. -/
def pyIsSpace (c : Char) : Bool :=
  c == ' ' || c == '\t' || c == '\n' || c == '\r' || c == '\x0b' || c == '\x0c'

def dropLeadingSpace : List Char → List Char
  | [] => []
  | c :: cs => if pyIsSpace c then dropLeadingSpace cs else c :: cs

/-- Python `str.strip()` on the character list of a string. -/
def pyStripChars (cs : List Char) : List Char :=
  dropLeadingSpace ((dropLeadingSpace cs.reverse).reverse)

/-- Python `str.strip()`. -/
def pyStrip (s : String) : String :=
  String.mk (pyStripChars s.data)

/-- Python `t.startswith(p)`. -/
def pyStartsWith (t p : String) : Bool :=
  List.isPrefixOf p.data t.data

/-- Python `t.endswith(p)`. -/
def pyEndsWith (t p : String) : Bool :=
  List.isPrefixOf p.data.reverse t.data.reverse

/-- The Markdown-fence normalizer, inlined identically in both endpoints:
`strip()` the raw text; if it starts with ```` ```json ```` and ends with
```` ``` ````, drop the 7-character opening marker, `strip()`, drop the
3-character closing marker (`[:-3]`), `strip()`; otherwise keep the
stripped text. -/
def strip_markdown_fences (gemini_output_text : String) : String :=
  let t := pyStrip gemini_output_text
  if pyStartsWith t "```json" && pyEndsWith t "```" then
    String.mk (pyStripChars
      (((pyStripChars (t.data.drop 7)).reverse.drop 3).reverse))
  else
    t

/-- Outcome of one external-model call followed by `json.loads` on the
normalized text: the call raised, the text was not valid JSON, or it
parsed to a JSON value. -/
inductive GeminiOutcome where
  | raised
  | returned (parsed : Option Json)

/-- Python formatting of `ficha["dados_fisiologicos"].get(key)` inside an
f-string: the dict starts empty, in which case `.get` yields `None`,
printed as `"None"`. -/
def getFmtInt (d : Option DadosFisiologicos) (f : DadosFisiologicos → Int) :
    String :=
  match d with
  | none => "None"
  | some v => toString (f v)

def getFmtNivel (d : Option DadosFisiologicos) : String :=
  match d with
  | none => "None"
  | some v => v.nivel_estresse

/-- The `dados_para_gemini` f-string, identical in both triage endpoints. -/
def dados_para_gemini (ficha : Ficha) : String :=
  "Nome: " ++ ficha.nome_completo ++ ", Idade: " ++ toString ficha.idade ++
  ", Endereço: " ++ ficha.endereco ++ ". " ++
  "Dados Fisiológicos: Altura: " ++
  getFmtInt ficha.dados_fisiologicos DadosFisiologicos.altura_cm ++ "cm, " ++
  "Peso: " ++
  getFmtInt ficha.dados_fisiologicos DadosFisiologicos.peso_kg ++ "kg, " ++
  "Pressão Arterial: " ++
  getFmtInt ficha.dados_fisiologicos DadosFisiologicos.pressao_arterial_sistolica ++
  "/" ++
  getFmtInt ficha.dados_fisiologicos DadosFisiologicos.pressao_arterial_diastolica ++
  " mmHg, " ++
  "Oxigenação: " ++
  getFmtInt ficha.dados_fisiologicos DadosFisiologicos.oxigenacao_sangue_percentual ++
  "%, " ++
  "Nível de Estresse: " ++ getFmtNivel ficha.dados_fisiologicos ++ "."

/-- The single-shot prompt `gemini_prompt` of `processar_queixa`. -/
def gemini_prompt (ficha : Ficha) : String :=
  "Você é um atendente de triagem médica para urgências ou clínicas médicas. " ++
  "Seu papel é ouvir as queixas e dúvidas de saúde do usuário e colher informações suficientes para apoiar o diagnóstico médico. " ++
  "Você já recebeu os seguintes dados pessoais e fisiológicos: " ++
  dados_para_gemini ficha ++ ". " ++
  "Agora, o paciente irá descrever sua queixa principal. " ++
  "Com base na queixa e nos dados fornecidos, defina a especialidade médica mais adequada para atendê-lo e gere uma orientação concisa para o médico. " ++
  "O output DEVE estar no formato JSON: \x7b\"especialidade_medica\": \"[especialidade_aqui]\", \"orientacao_ao_medico\": \"[orientacao_aqui]\"\x7d. " ++
  "Não adicione nenhum texto antes ou depois do JSON. Não estenda a conversa. " ++
  "Assim que o JSON for gerado, sua tarefa está completa. Apenas o JSON deve ser retornado."

/-- `full_prompt = f"{gemini_prompt}\nQueixa do paciente: {queixa_paciente}"`. -/
def full_prompt (ficha : Ficha) (queixa_paciente : String) : String :=
  gemini_prompt ficha ++ "\nQueixa do paciente: " ++ queixa_paciente

/-- The conversational system prompt `gemini_system_prompt` of
`chat_with_gemini`. -/
def gemini_system_prompt (ficha : Ficha) : String :=
  "Você é um atendente de triagem médica para urgências ou clínicas médicas. " ++
  "Seu papel é ouvir as queixas e dúvidas de saúde do usuário e colher informações suficientes para apoiar o diagnóstico médico. " ++
  "Os dados pessoais e fisiológicos iniciais do paciente são: " ++
  dados_para_gemini ficha ++ ". " ++
  "Você deve conduzir a conversa fazendo perguntas relevantes para obter detalhes sobre a queixa principal (localização, intensidade, duração, sintomas associados, histórico médico relevante, medicamentos em uso, etc.). " ++
  "Quando você sentir que tem informações suficientes para determinar a especialidade médica e uma orientação concisa para o médico, você DEVE finalizar a triagem. " ++
  "Se você precisar de mais informações, responda com uma pergunta clara e concisa para o paciente. " ++
  "Se você tiver informações suficientes, responda com um JSON no formato: " ++
  "\x7b\"status\": \"final\", \"bot_message\": \"Obrigado pelas informações. Avaliei seu caso.\", \"especialidade_medica\": \"[especialidade_aqui]\", \"orientacao_ao_medico\": \"[orientacao_aqui]\"\x7d. " ++
  "Se precisar de mais informações, responda com um JSON no formato: " ++
  "\x7b\"status\": \"ongoing\", \"bot_message\": \"[sua_pergunta_aqui]\"\x7d. " ++
  "Não adicione nenhum texto antes ou depois do JSON. Apenas o JSON deve ser retornado."

/-- `conversation_for_gemini`: the synthetic system-instruction message
(role `"model"`) followed by the stored `chat_history`. -/
def conversation_for_gemini (ficha : Ficha) : List ChatTurn :=
  { role := Role.model, text := gemini_system_prompt ficha } :: ficha.chat_history

/-- The fixed `bot_message` returned for an already-finalized session. -/
def closed_session_message : String :=
  "A triagem para esta sessão já foi finalizada. Por favor, inicie um novo atendimento se precisar."

/-- HTTP response of `POST /api/v1/chat_with_gemini` (found-session path).
The four constructors are the four distinct JSON bodies the endpoint can
produce: the early return for a session already `"final"` (fixed message
plus the stored `especialidade_medica` / `orientacao_ao_medico`), the
`"ongoing"` reply, the finalizing reply carrying the full record under
`ficha_de_atendimento`, and an `HTTPException`. -/
inductive ChatResponse where
  | alreadyFinal (bot_message : String)
      (especialidade_medica orientacao_ao_medico : Option String)
  | ongoingReply (bot_message : String)
  | finalReply (bot_message : String) (ficha_de_atendimento : Ficha)
  | httpError (status_code : Nat)
deriving DecidableEq, Repr

/-- `"\n".join(msg["parts"][0]["text"] for msg in history if msg["role"] == "user")`. -/
def joinUserTexts (history : List ChatTurn) : String :=
  String.intercalate "\n"
    ((history.filter (fun msg => msg.role == Role.user)).map (fun msg => msg.text))

/-- The record with the incoming user utterance appended to `chat_history`
(role `"user"`), as done before the model is invoked. -/
def appendUser (ficha : Ficha) (user_message : String) : Ficha :=
  { ficha with chat_history :=
      ficha.chat_history ++ [{ role := Role.user, text := user_message }] }

/-- `POST /api/v1/chat_with_gemini` on the record found for the session.
`gemini` maps the message sequence sent to `generate_content` to that
outcome of that call.  Returns the record as left in the store and the HTTP
response.  (The 404 unknown-session and 503 uninitialized-model early
exits happen before the record is touched and are outside this model.) -/
def chat_with_gemini (ficha : Ficha) (user_message : String)
    (gemini : List ChatTurn → GeminiOutcome) : Ficha × ChatResponse :=
  if ficha.conversation_status = ConversationStatus.final then
    (ficha, ChatResponse.alreadyFinal closed_session_message
      ficha.especialidade_medica ficha.orientacao_ao_medico)
  else
    let ficha1 := appendUser ficha user_message
    match gemini (conversation_for_gemini ficha1) with
    | GeminiOutcome.raised => (ficha1, ChatResponse.httpError 500)
    | GeminiOutcome.returned none => (ficha1, ChatResponse.httpError 500)
    | GeminiOutcome.returned (some parsed) =>
      match ConversationalGeminiResponse.validate parsed with
      | none => (ficha1, ChatResponse.httpError 500)
      | some r =>
        let ficha2 := { ficha1 with chat_history :=
          ficha1.chat_history ++ [{ role := Role.model, text := r.bot_message }] }
        match r.status with
        | ConversationStatus.final =>
          let ficha3 := { ficha2 with
            especialidade_medica := r.especialidade_medica
            orientacao_ao_medico := r.orientacao_ao_medico
            queixa_paciente := joinUserTexts ficha2.chat_history
            conversation_status := ConversationStatus.final }
          (ficha3, ChatResponse.finalReply r.bot_message ficha3)
        | ConversationStatus.ongoing =>
          (ficha2, ChatResponse.ongoingReply r.bot_message)

/-- HTTP response of `POST /api/v0/processar_queixa` (found-session path):
success carries the full record under `ficha_de_atendimento`. -/
inductive ProcessarResponse where
  | success (message : String) (ficha_de_atendimento : Ficha)
  | httpError (status_code : Nat)
deriving DecidableEq, Repr

/-- `POST /api/v0/processar_queixa` on the record found for the session.
The complaint is written into the record before the model call; on a
validated response the specialty and guidance are written; every failure
(model raised, JSON parse error, pydantic validation error) maps to 500. -/
def processar_queixa (ficha : Ficha) (queixa : String)
    (gemini : String → GeminiOutcome) : Ficha × ProcessarResponse :=
  let ficha1 := { ficha with queixa_paciente := queixa }
  match gemini (full_prompt ficha1 queixa) with
  | GeminiOutcome.raised => (ficha1, ProcessarResponse.httpError 500)
  | GeminiOutcome.returned none => (ficha1, ProcessarResponse.httpError 500)
  | GeminiOutcome.returned (some parsed) =>
    match GeminiResponse.validate parsed with
    | none => (ficha1, ProcessarResponse.httpError 500)
    | some r =>
      let ficha2 := { ficha1 with
        especialidade_medica := some r.especialidade_medica
        orientacao_ao_medico := some r.orientacao_ao_medico }
      (ficha2, ProcessarResponse.success
        ("Ficha de atendimento completa para session_id: " ++
          ficha2.session_id ++ " .") ficha2)

/-- `GET /api/v1/obter_dados_smartwatch/{session_id}` on the found record:
overwrites `dados_fisiologicos` with the fixed constants. -/
def obter_dados_smartwatch (ficha : Ficha) : Ficha × DadosFisiologicos :=
  ({ ficha with dados_fisiologicos := some dados_fisiologicos_artificiais },
    dados_fisiologicos_artificiais)

/-- `GET /api/v1/ficha_completa/{session_id}` on the found record:
read-only. -/
def obter_ficha_completa (ficha : Ficha) : Ficha :=
  ficha

/-- One API call against a fixed session, with its external-model oracle
where one is consulted. -/
inductive Op where
  | smartwatch
  | fichaCompleta
  | processar (queixa : String) (gemini : String → GeminiOutcome)
  | chat (user_message : String) (gemini : List ChatTurn → GeminiOutcome)

/-- The record after one call. -/
def applyOp (ficha : Ficha) : Op → Ficha
  | Op.smartwatch => (obter_dados_smartwatch ficha).1
  | Op.fichaCompleta => obter_ficha_completa ficha
  | Op.processar q g => (processar_queixa ficha q g).1
  | Op.chat m g => (chat_with_gemini ficha m g).1

/-- The record after a sequence of calls. -/
def runOps (ficha : Ficha) (ops : List Op) : Ficha :=
  ops.foldl applyOp ficha

/-- A record is reachable when some sequence of calls on a freshly
created session produces it. -/
def Reachable (ficha : Ficha) : Prop :=
  ∃ sid nome endereco idade ops,
    runOps (iniciar_atendimento sid nome endereco idade) ops = ficha

/-- Record produced by the finalizing branch of `chat_with_gemini`:
user and bot turns appended, specialty and guidance copied from the
validated response, complaint recomputed from the user turns, status
sealed. -/
def finalizedRecord (ficha : Ficha) (user_message : String)
    (r : ConversationalGeminiResponse) : Ficha :=
  { ficha with
    chat_history := ficha.chat_history ++
      [{ role := Role.user, text := user_message },
       { role := Role.model, text := r.bot_message }]
    especialidade_medica := r.especialidade_medica
    orientacao_ao_medico := r.orientacao_ao_medico
    queixa_paciente := joinUserTexts (ficha.chat_history ++
      [{ role := Role.user, text := user_message },
       { role := Role.model, text := r.bot_message }])
    conversation_status := ConversationStatus.final }

/-- An `especialidade_medica`/`orientacao_ao_medico` JSON field pydantic
accepts: absent, null, or a string. -/
def optStrOk (o : Option Json) : Prop :=
  o = none ∨ o = some Json.null ∨ ∃ s, o = some (Json.str s)

/-- Calls other than the single-shot triage endpoint. -/
def Op.isConversational : Op → Bool
  | Op.processar _ _ => false
  | _ => true

/-- Concrete fixtures used by counterexamples and witnesses. -/
def fichaAna : Ficha :=
  iniciar_atendimento "sessao-1" "Ana" "Rua X" 30

def respostaFinalJson : Json :=
  Json.obj
    [("status", Json.str "final"),
     ("bot_message", Json.str "Obrigado"),
     ("especialidade_medica", Json.str "Neurologia"),
     ("orientacao_ao_medico", Json.str "Avaliar cefaleia")]

def geminiFinal : List ChatTurn → GeminiOutcome :=
  fun _ => GeminiOutcome.returned (some respostaFinalJson)

def respostaOngoingJson : Json :=
  Json.obj
    [("status", Json.str "ongoing"),
     ("bot_message", Json.str "Há quanto tempo?")]

def geminiOngoing : List ChatTurn → GeminiOutcome :=
  fun _ => GeminiOutcome.returned (some respostaOngoingJson)

def geminiRaisedChat : List ChatTurn → GeminiOutcome :=
  fun _ => GeminiOutcome.raised

def geminiRaisedSS : String → GeminiOutcome :=
  fun _ => GeminiOutcome.raised

def respostaSSJson : Json :=
  Json.obj
    [("especialidade_medica", Json.str "Cardiologia"),
     ("orientacao_ao_medico", Json.str "Avaliar dor torácica")]

def geminiSS : String → GeminiOutcome :=
  fun _ => GeminiOutcome.returned (some respostaSSJson)

/-- A session driven to `final` by one conversational turn. -/
def fichaFinalizada : Ficha :=
  runOps fichaAna [Op.chat "dor de cabeça" geminiFinal]

/-- A fresh session after one successful single-shot triage call. -/
def fichaSingleShot : Ficha :=
  runOps fichaAna [Op.processar "dor de cabeça forte" geminiSS]

/-- The parsed response `{"status": "final", "bot_message": "x"}` with the
specialty and guidance fields missing. -/
def finalSemEspecialidadeJson : Json :=
  Json.obj [("status", Json.str "final"), ("bot_message", Json.str "x")]

/-- Parsed `"ongoing"` response that also carries non-null specialty and
guidance strings. -/
def ongoingComExtrasJson : List (String × Json) :=
  [("status", Json.str "ongoing"),
   ("bot_message", Json.str "Ok"),
   ("especialidade_medica", Json.str "Clinico Geral"),
   ("orientacao_ao_medico", Json.str "Observar")]

def geminiOngoingExtras : List ChatTurn → GeminiOutcome :=
  fun _ => GeminiOutcome.returned (some (Json.obj ongoingComExtrasJson))

/-! Helper lemmas about the conversational engine, shared by the claims. -/

lemma chat_final_entry (ficha : Ficha) (m : String)
    (g : List ChatTurn → GeminiOutcome)
    (hf : ficha.conversation_status = ConversationStatus.final) :
    chat_with_gemini ficha m g =
      (ficha, ChatResponse.alreadyFinal closed_session_message
        ficha.especialidade_medica ficha.orientacao_ao_medico) := by
  rw [chat_with_gemini, if_pos hf]

lemma chat_raised (ficha : Ficha) (m : String)
    (g : List ChatTurn → GeminiOutcome)
    (hf : ¬ ficha.conversation_status = ConversationStatus.final)
    (hg : g (conversation_for_gemini (appendUser ficha m)) =
      GeminiOutcome.raised) :
    chat_with_gemini ficha m g =
      (appendUser ficha m, ChatResponse.httpError 500) := by
  rw [chat_with_gemini, if_neg hf]
  simp only [hg]

lemma chat_parse_failed (ficha : Ficha) (m : String)
    (g : List ChatTurn → GeminiOutcome)
    (hf : ¬ ficha.conversation_status = ConversationStatus.final)
    (hg : g (conversation_for_gemini (appendUser ficha m)) =
      GeminiOutcome.returned none) :
    chat_with_gemini ficha m g =
      (appendUser ficha m, ChatResponse.httpError 500) := by
  rw [chat_with_gemini, if_neg hf]
  simp only [hg]

lemma chat_invalid (ficha : Ficha) (m : String)
    (g : List ChatTurn → GeminiOutcome) (parsed : Json)
    (hf : ¬ ficha.conversation_status = ConversationStatus.final)
    (hg : g (conversation_for_gemini (appendUser ficha m)) =
      GeminiOutcome.returned (some parsed))
    (hv : ConversationalGeminiResponse.validate parsed = none) :
    chat_with_gemini ficha m g =
      (appendUser ficha m, ChatResponse.httpError 500) := by
  rw [chat_with_gemini, if_neg hf]
  simp only [hg, hv]

lemma chat_validated_ongoing (ficha : Ficha) (m : String)
    (g : List ChatTurn → GeminiOutcome) (parsed : Json)
    (r : ConversationalGeminiResponse)
    (hf : ¬ ficha.conversation_status = ConversationStatus.final)
    (hg : g (conversation_for_gemini (appendUser ficha m)) =
      GeminiOutcome.returned (some parsed))
    (hv : ConversationalGeminiResponse.validate parsed = some r)
    (hs : r.status = ConversationStatus.ongoing) :
    chat_with_gemini ficha m g =
      ({ ficha with chat_history := ficha.chat_history ++
          [{ role := Role.user, text := m },
           { role := Role.model, text := r.bot_message }] },
        ChatResponse.ongoingReply r.bot_message) := by
  rw [chat_with_gemini, if_neg hf]
  simp only [hg, hv, hs]
  simp [appendUser, List.append_assoc]

lemma chat_validated_final (ficha : Ficha) (m : String)
    (g : List ChatTurn → GeminiOutcome) (parsed : Json)
    (r : ConversationalGeminiResponse)
    (hf : ¬ ficha.conversation_status = ConversationStatus.final)
    (hg : g (conversation_for_gemini (appendUser ficha m)) =
      GeminiOutcome.returned (some parsed))
    (hv : ConversationalGeminiResponse.validate parsed = some r)
    (hs : r.status = ConversationStatus.final) :
    chat_with_gemini ficha m g =
      (finalizedRecord ficha m r,
        ChatResponse.finalReply r.bot_message (finalizedRecord ficha m r)) := by
  rw [chat_with_gemini, if_neg hf]
  simp only [hg, hv, hs]
  simp [appendUser, finalizedRecord, List.append_assoc]

lemma chat_ongoingReply_inv (ficha : Ficha) (m : String)
    (g : List ChatTurn → GeminiOutcome) (bm : String)
    (h : (chat_with_gemini ficha m g).2 = ChatResponse.ongoingReply bm) :
    ∃ r : ConversationalGeminiResponse,
      r.bot_message = bm ∧ r.status = ConversationStatus.ongoing ∧
      chat_with_gemini ficha m g =
        ({ ficha with chat_history := ficha.chat_history ++
            [{ role := Role.user, text := m },
             { role := Role.model, text := bm }] },
          ChatResponse.ongoingReply bm) := by
  by_cases hf : ficha.conversation_status = ConversationStatus.final
  · rw [chat_final_entry ficha m g hf] at h
    exact absurd h (by simp)
  · rcases hg : g (conversation_for_gemini (appendUser ficha m)) with _ | p
    · rw [chat_raised ficha m g hf hg] at h
      exact absurd h (by simp)
    · rcases p with _ | parsed
      · rw [chat_parse_failed ficha m g hf hg] at h
        exact absurd h (by simp)
      · rcases hv : ConversationalGeminiResponse.validate parsed with _ | r
        · rw [chat_invalid ficha m g parsed hf hg hv] at h
          exact absurd h (by simp)
        · rcases hs : r.status with _ | _
          · rw [chat_validated_ongoing ficha m g parsed r hf hg hv hs] at h
            simp only [ChatResponse.ongoingReply.injEq] at h
            subst h
            exact ⟨r, rfl, hs, chat_validated_ongoing ficha m g parsed r hf hg hv hs⟩
          · rw [chat_validated_final ficha m g parsed r hf hg hv hs] at h
            exact absurd h (by simp)

lemma chat_finalReply_inv (ficha : Ficha) (m : String)
    (g : List ChatTurn → GeminiOutcome) (bm : String) (fo : Ficha)
    (h : (chat_with_gemini ficha m g).2 = ChatResponse.finalReply bm fo) :
    ∃ r : ConversationalGeminiResponse,
      r.bot_message = bm ∧ r.status = ConversationStatus.final ∧
      fo = finalizedRecord ficha m r ∧
      chat_with_gemini ficha m g = (fo, ChatResponse.finalReply bm fo) := by
  by_cases hf : ficha.conversation_status = ConversationStatus.final
  · rw [chat_final_entry ficha m g hf] at h
    exact absurd h (by simp)
  · rcases hg : g (conversation_for_gemini (appendUser ficha m)) with _ | p
    · rw [chat_raised ficha m g hf hg] at h
      exact absurd h (by simp)
    · rcases p with _ | parsed
      · rw [chat_parse_failed ficha m g hf hg] at h
        exact absurd h (by simp)
      · rcases hv : ConversationalGeminiResponse.validate parsed with _ | r
        · rw [chat_invalid ficha m g parsed hf hg hv] at h
          exact absurd h (by simp)
        · rcases hs : r.status with _ | _
          · rw [chat_validated_ongoing ficha m g parsed r hf hg hv hs] at h
            exact absurd h (by simp)
          · rw [chat_validated_final ficha m g parsed r hf hg hv hs] at h
            simp only [ChatResponse.finalReply.injEq] at h
            obtain ⟨hbm, hfo⟩ := h
            subst hbm
            subst hfo
            exact ⟨r, rfl, hs, rfl,
              chat_validated_final ficha m g parsed r hf hg hv hs⟩

lemma chat_httpError_inv (ficha : Ficha) (m : String)
    (g : List ChatTurn → GeminiOutcome) (c : Nat)
    (h : (chat_with_gemini ficha m g).2 = ChatResponse.httpError c) :
    chat_with_gemini ficha m g =
      (appendUser ficha m, ChatResponse.httpError 500) := by
  by_cases hf : ficha.conversation_status = ConversationStatus.final
  · rw [chat_final_entry ficha m g hf] at h
    exact absurd h (by simp)
  · rcases hg : g (conversation_for_gemini (appendUser ficha m)) with _ | p
    · exact chat_raised ficha m g hf hg
    · rcases p with _ | parsed
      · exact chat_parse_failed ficha m g hf hg
      · rcases hv : ConversationalGeminiResponse.validate parsed with _ | r
        · exact chat_invalid ficha m g parsed hf hg hv
        · rcases hs : r.status with _ | _
          · rw [chat_validated_ongoing ficha m g parsed r hf hg hv hs] at h
            exact absurd h (by simp)
          · rw [chat_validated_final ficha m g parsed r hf hg hv hs] at h
            exact absurd h (by simp)

/-! Helper lemmas about the single-shot endpoint. -/

lemma processar_raised (ficha : Ficha) (q : String)
    (g : String → GeminiOutcome)
    (hg : g (full_prompt { ficha with queixa_paciente := q } q) =
      GeminiOutcome.raised) :
    processar_queixa ficha q g =
      ({ ficha with queixa_paciente := q }, ProcessarResponse.httpError 500) := by
  rw [processar_queixa]
  simp only [hg]

lemma processar_parse_failed (ficha : Ficha) (q : String)
    (g : String → GeminiOutcome)
    (hg : g (full_prompt { ficha with queixa_paciente := q } q) =
      GeminiOutcome.returned none) :
    processar_queixa ficha q g =
      ({ ficha with queixa_paciente := q }, ProcessarResponse.httpError 500) := by
  rw [processar_queixa]
  simp only [hg]

lemma processar_invalid (ficha : Ficha) (q : String)
    (g : String → GeminiOutcome) (parsed : Json)
    (hg : g (full_prompt { ficha with queixa_paciente := q } q) =
      GeminiOutcome.returned (some parsed))
    (hv : GeminiResponse.validate parsed = none) :
    processar_queixa ficha q g =
      ({ ficha with queixa_paciente := q }, ProcessarResponse.httpError 500) := by
  rw [processar_queixa]
  simp only [hg, hv]

lemma processar_validated (ficha : Ficha) (q : String)
    (g : String → GeminiOutcome) (parsed : Json) (r : GeminiResponse)
    (hg : g (full_prompt { ficha with queixa_paciente := q } q) =
      GeminiOutcome.returned (some parsed))
    (hv : GeminiResponse.validate parsed = some r) :
    processar_queixa ficha q g =
      ({ ficha with
          queixa_paciente := q
          especialidade_medica := some r.especialidade_medica
          orientacao_ao_medico := some r.orientacao_ao_medico },
        ProcessarResponse.success
          ("Ficha de atendimento completa para session_id: " ++
            ficha.session_id ++ " .")
          { ficha with
            queixa_paciente := q
            especialidade_medica := some r.especialidade_medica
            orientacao_ao_medico := some r.orientacao_ao_medico }) := by
  rw [processar_queixa]
  simp only [hg, hv]

lemma processar_conversation_status (ficha : Ficha) (q : String)
    (g : String → GeminiOutcome) :
    ((processar_queixa ficha q g).1).conversation_status =
      ficha.conversation_status := by
  rcases hg : g (full_prompt { ficha with queixa_paciente := q } q) with _ | p
  · rw [processar_raised ficha q g hg]
  · rcases p with _ | parsed
    · rw [processar_parse_failed ficha q g hg]
    · rcases hv : GeminiResponse.validate parsed with _ | r
      · rw [processar_invalid ficha q g parsed hg hv]
      · rw [processar_validated ficha q g parsed r hg hv]

lemma processar_httpError_inv (ficha : Ficha) (q : String)
    (g : String → GeminiOutcome) (c : Nat)
    (h : (processar_queixa ficha q g).2 = ProcessarResponse.httpError c) :
    processar_queixa ficha q g =
      ({ ficha with queixa_paciente := q }, ProcessarResponse.httpError 500) := by
  rcases hg : g (full_prompt { ficha with queixa_paciente := q } q) with _ | p
  · exact processar_raised ficha q g hg
  · rcases p with _ | parsed
    · exact processar_parse_failed ficha q g hg
    · rcases hv : GeminiResponse.validate parsed with _ | r
      · exact processar_invalid ficha q g parsed hg hv
      · rw [processar_validated ficha q g parsed r hg hv] at h
        exact absurd h (by simp)

/-! Helper lemmas about pydantic validation. -/

lemma validateStatus_isSome_iff (o : Option Json) :
    (validateStatus o).isSome = true ↔
      o = some (Json.str "ongoing") ∨ o = some (Json.str "final") := by
  rcases o with _ | j
  · simp [validateStatus]
  · rcases j with _ | b | n | s | xs | flds <;> simp [validateStatus]
    split_ifs <;> simp [*]

lemma validateStr_isSome_iff (o : Option Json) :
    (validateStr o).isSome = true ↔ ∃ s, o = some (Json.str s) := by
  rcases o with _ | j
  · simp [validateStr]
  · rcases j with _ | b | n | s | xs | flds <;> simp [validateStr]

lemma validateOptStr_isSome_iff (o : Option Json) :
    (validateOptStr o).isSome = true ↔ optStrOk o := by
  rcases o with _ | j
  · simp [validateOptStr, optStrOk]
  · rcases j with _ | b | n | s | xs | flds <;> simp [validateOptStr, optStrOk]

lemma validate_obj_isSome (fields : List (String × Json)) :
    (ConversationalGeminiResponse.validate (Json.obj fields)).isSome =
      ((validateStatus (lookupField fields "status")).isSome &&
       (validateStr (lookupField fields "bot_message")).isSome &&
       (validateOptStr (lookupField fields "especialidade_medica")).isSome &&
       (validateOptStr (lookupField fields "orientacao_ao_medico")).isSome) := by
  rcases h1 : validateStatus (lookupField fields "status") with _ | st <;>
    rcases h2 : validateStr (lookupField fields "bot_message") with _ | bm <;>
    rcases h3 : validateOptStr (lookupField fields "especialidade_medica")
      with _ | esp <;>
    rcases h4 : validateOptStr (lookupField fields "orientacao_ao_medico")
      with _ | ori <;>
    simp [ConversationalGeminiResponse.validate, h1, h2, h3, h4]

lemma joinUserTexts_append_model (l : List ChatTurn) (t : String) :
    joinUserTexts (l ++ [{ role := Role.model, text := t }]) =
      joinUserTexts l := by
  simp [joinUserTexts, List.filter_append]

/-! The claims. -/

/-- C5: a conversational-turn call on a session whose record is already
`final` on entry short-circuits: for every model oracle the result is the
unchanged record (so the model is never consulted and nothing is appended
to `chat_history`) together with the stored `especialidade_medica` and
`orientacao_ao_medico` and the fixed closed-session message. -/
theorem C5_closed_session_idempotence (ficha : Ficha) (user_message : String)
    (gemini : List ChatTurn → GeminiOutcome)
    (h : ficha.conversation_status = ConversationStatus.final) :
    chat_with_gemini ficha user_message gemini =
      (ficha, ChatResponse.alreadyFinal closed_session_message
        ficha.especialidade_medica ficha.orientacao_ao_medico) :=
  chat_final_entry ficha user_message gemini h

theorem C5_closed_session_idempotence_witness :
    fichaFinalizada.conversation_status = ConversationStatus.final ∧
    chat_with_gemini fichaFinalizada "tenho mais sintomas" geminiRaisedChat =
      (fichaFinalizada, ChatResponse.alreadyFinal closed_session_message
        fichaFinalizada.especialidade_medica fichaFinalizada.orientacao_ao_medico) :=
  ⟨by decide, C5_closed_session_idempotence fichaFinalizada "tenho mais sintomas"
    geminiRaisedChat (by decide)⟩

/-- C6: the normalizer trims surrounding whitespace and, when the trimmed
text is not wrapped in a ```` ```json ```` … ```` ``` ```` fence, returns
the trimmed text unchanged; on the fenced example it yields the inner
JSON text. -/
theorem C6_fence_stripping :
    (∀ s : String,
      (pyStartsWith (pyStrip s) "```json" && pyEndsWith (pyStrip s) "```") =
        false →
      strip_markdown_fences s = pyStrip s) ∧
    strip_markdown_fences "```json\n\x7b\"a\":1\x7d\n```" = "\x7b\"a\":1\x7d" := by
  constructor
  · intro s h
    simp [strip_markdown_fences, h]
  · decide

theorem C6_fence_stripping_witness :
    (pyStartsWith (pyStrip "ola") "```json" && pyEndsWith (pyStrip "ola") "```") =
      false ∧
    strip_markdown_fences "ola" = pyStrip "ola" :=
  ⟨by decide, C6_fence_stripping.1 "ola" (by decide)⟩

/-- C3 counterexample: the parsed conversational response
`{"status": "final", "bot_message": "x"}`, with `especialidade_medica` and
`orientacao_ao_medico` missing, is ACCEPTED by pydantic validation (the
optional fields default to null); the claim requires it to fail with a
schema mismatch. -/
theorem C3_counterexample_final_missing_fields_validates :
    ConversationalGeminiResponse.validate finalSemEspecialidadeJson =
      some { status := ConversationStatus.final, bot_message := "x",
             especialidade_medica := none, orientacao_ao_medico := none } := by
  rfl

/-- C3 (amended): validation of a parsed conversational object succeeds
iff `status` is exactly the string `"ongoing"` or `"final"` and
`bot_message` is a string, while `especialidade_medica` and
`orientacao_ao_medico` are each absent, null, or a string — the same rule
for both statuses, so a `final` response with missing or null
specialty/guidance is accepted. -/
theorem C3_amended_validation_characterization
    (fields : List (String × Json)) :
    (ConversationalGeminiResponse.validate (Json.obj fields)).isSome = true ↔
      ((lookupField fields "status" = some (Json.str "ongoing") ∨
        lookupField fields "status" = some (Json.str "final")) ∧
       (∃ bm, lookupField fields "bot_message" = some (Json.str bm)) ∧
       optStrOk (lookupField fields "especialidade_medica") ∧
       optStrOk (lookupField fields "orientacao_ao_medico")) := by
  rw [validate_obj_isSome]
  simp only [Bool.and_eq_true, validateStatus_isSome_iff,
    validateStr_isSome_iff, validateOptStr_isSome_iff]
  tauto

/-- C9: an `"ongoing"` response that additionally carries non-null string
`especialidade_medica` / `orientacao_ao_medico` validates successfully,
and a turn answered with an ongoing reply leaves the specialty,
guidance, complaint, and status untouched — only the history grows — so
the extra values are silently discarded. -/
theorem C9_ongoing_extra_fields_accepted_and_discarded :
    (∀ (fields : List (String × Json)) (bm esp ori : String),
      lookupField fields "status" = some (Json.str "ongoing") →
      lookupField fields "bot_message" = some (Json.str bm) →
      lookupField fields "especialidade_medica" = some (Json.str esp) →
      lookupField fields "orientacao_ao_medico" = some (Json.str ori) →
      ConversationalGeminiResponse.validate (Json.obj fields) =
        some { status := ConversationStatus.ongoing, bot_message := bm,
               especialidade_medica := some esp,
               orientacao_ao_medico := some ori }) ∧
    (∀ (ficha : Ficha) (m : String) (g : List ChatTurn → GeminiOutcome)
        (bm : String),
      (chat_with_gemini ficha m g).2 = ChatResponse.ongoingReply bm →
      ((chat_with_gemini ficha m g).1).especialidade_medica =
          ficha.especialidade_medica ∧
        ((chat_with_gemini ficha m g).1).orientacao_ao_medico =
          ficha.orientacao_ao_medico ∧
        ((chat_with_gemini ficha m g).1).queixa_paciente =
          ficha.queixa_paciente ∧
        ((chat_with_gemini ficha m g).1).conversation_status =
          ficha.conversation_status ∧
        ((chat_with_gemini ficha m g).1).chat_history =
          ficha.chat_history ++ [{ role := Role.user, text := m },
            { role := Role.model, text := bm }]) ∧
    (∀ (ficha : Ficha) (m : String) (g : List ChatTurn → GeminiOutcome)
        (fields : List (String × Json)) (bm esp ori : String),
      ficha.conversation_status = ConversationStatus.ongoing →
      g (conversation_for_gemini (appendUser ficha m)) =
        GeminiOutcome.returned (some (Json.obj fields)) →
      lookupField fields "status" = some (Json.str "ongoing") →
      lookupField fields "bot_message" = some (Json.str bm) →
      lookupField fields "especialidade_medica" = some (Json.str esp) →
      lookupField fields "orientacao_ao_medico" = some (Json.str ori) →
      (chat_with_gemini ficha m g).2 = ChatResponse.ongoingReply bm) := by
  have hval : ∀ (fields : List (String × Json)) (bm esp ori : String),
      lookupField fields "status" = some (Json.str "ongoing") →
      lookupField fields "bot_message" = some (Json.str bm) →
      lookupField fields "especialidade_medica" = some (Json.str esp) →
      lookupField fields "orientacao_ao_medico" = some (Json.str ori) →
      ConversationalGeminiResponse.validate (Json.obj fields) =
        some { status := ConversationStatus.ongoing, bot_message := bm,
               especialidade_medica := some esp,
               orientacao_ao_medico := some ori } := by
    intro fields bm esp ori h1 h2 h3 h4
    simp [ConversationalGeminiResponse.validate, h1, h2, h3, h4,
      validateStatus, validateStr, validateOptStr]
  refine ⟨hval, ?_, ?_⟩
  · intro ficha m g bm h
    obtain ⟨r, hbm, hs, heq⟩ := chat_ongoingReply_inv ficha m g bm h
    rw [heq]
    exact ⟨rfl, rfl, rfl, rfl, rfl⟩
  · intro ficha m g fields bm esp ori hst hg h1 h2 h3 h4
    have hf : ¬ ficha.conversation_status = ConversationStatus.final := by
      rw [hst]
      simp
    rw [chat_validated_ongoing ficha m g (Json.obj fields)
      { status := ConversationStatus.ongoing, bot_message := bm,
        especialidade_medica := some esp, orientacao_ao_medico := some ori }
      hf hg (hval fields bm esp ori h1 h2 h3 h4) rfl]

theorem C9_ongoing_extra_fields_witness :
    ConversationalGeminiResponse.validate (Json.obj ongoingComExtrasJson) =
      some { status := ConversationStatus.ongoing, bot_message := "Ok",
             especialidade_medica := some "Clinico Geral",
             orientacao_ao_medico := some "Observar" } :=
  C9_ongoing_extra_fields_accepted_and_discarded.1 ongoingComExtrasJson
    "Ok" "Clinico Geral" "Observar" rfl rfl rfl rfl

/-- C7: whenever a conversational turn produces the finalizing reply, the
record it stores (and carries in the reply) has `queixa_paciente` equal
to the newline-joined texts of all `user`-role turns of `chat_history`,
in stored order, including the just-appended utterance of the turn itself. -/
theorem C7_complaint_rebuilt_from_user_turns (ficha : Ficha) (m : String)
    (g : List ChatTurn → GeminiOutcome) (bm : String) (fo : Ficha)
    (h : (chat_with_gemini ficha m g).2 = ChatResponse.finalReply bm fo) :
    fo.queixa_paciente =
      joinUserTexts (ficha.chat_history ++ [{ role := Role.user, text := m }]) ∧
    (chat_with_gemini ficha m g).1 = fo := by
  obtain ⟨r, hbm, hs, hfo, heq⟩ := chat_finalReply_inv ficha m g bm fo h
  subst hfo
  refine ⟨?_, by rw [heq]⟩
  have h2 : ficha.chat_history ++
      [{ role := Role.user, text := m },
       { role := Role.model, text := r.bot_message }] =
      (ficha.chat_history ++ [{ role := Role.user, text := m }]) ++
        [{ role := Role.model, text := r.bot_message }] := by
    simp
  simp only [finalizedRecord, h2, joinUserTexts_append_model]

theorem C7_complaint_rebuilt_witness :
    fichaFinalizada.queixa_paciente =
      joinUserTexts (fichaAna.chat_history ++
        [{ role := Role.user, text := "dor de cabeça" }]) ∧
    (chat_with_gemini fichaAna "dor de cabeça" geminiFinal).1 = fichaFinalizada :=
  C7_complaint_rebuilt_from_user_turns fichaAna "dor de cabeça" geminiFinal
    "Obrigado" fichaFinalizada (by decide)

/-- C8: on a non-final session the incoming utterance is appended (role
`user`) before the model is invoked and the model is consulted exactly on
the synthetic system-instruction turn (role `model`) followed by the full
stored history including that utterance — two oracles agreeing on that
one payload give identical results; every outcome keeps the appended user
turn as a prefix of the new history; and a validated
`bot_message` is appended with role `model` whether the status is ongoing
or final. -/
theorem C8_turn_protocol :
    (∀ (ficha : Ficha) (m : String) (g g' : List ChatTurn → GeminiOutcome),
      ficha.conversation_status = ConversationStatus.ongoing →
      g (conversation_for_gemini (appendUser ficha m)) =
        g' (conversation_for_gemini (appendUser ficha m)) →
      chat_with_gemini ficha m g = chat_with_gemini ficha m g') ∧
    (∀ (ficha : Ficha) (m : String) (g : List ChatTurn → GeminiOutcome),
      ficha.conversation_status = ConversationStatus.ongoing →
      ∃ rest, ((chat_with_gemini ficha m g).1).chat_history =
        (ficha.chat_history ++ [{ role := Role.user, text := m }]) ++ rest) ∧
    (∀ (ficha : Ficha) (m : String) (g : List ChatTurn → GeminiOutcome)
        (bm : String),
      ((chat_with_gemini ficha m g).2 = ChatResponse.ongoingReply bm ∨
        ∃ fo, (chat_with_gemini ficha m g).2 = ChatResponse.finalReply bm fo) →
      ((chat_with_gemini ficha m g).1).chat_history =
        ficha.chat_history ++ [{ role := Role.user, text := m },
          { role := Role.model, text := bm }]) := by
  refine ⟨?_, ?_, ?_⟩
  · intro ficha m g g' hs hgg
    have hf : ¬ ficha.conversation_status = ConversationStatus.final := by
      rw [hs]
      simp
    rw [chat_with_gemini, chat_with_gemini, if_neg hf, if_neg hf]
    simp only [hgg]
  · intro ficha m g hs
    have hf : ¬ ficha.conversation_status = ConversationStatus.final := by
      rw [hs]
      simp
    rcases hg : g (conversation_for_gemini (appendUser ficha m)) with _ | p
    · rw [chat_raised ficha m g hf hg]
      exact ⟨[], by simp [appendUser]⟩
    · rcases p with _ | parsed
      · rw [chat_parse_failed ficha m g hf hg]
        exact ⟨[], by simp [appendUser]⟩
      · rcases hv : ConversationalGeminiResponse.validate parsed with _ | r
        · rw [chat_invalid ficha m g parsed hf hg hv]
          exact ⟨[], by simp [appendUser]⟩
        · rcases hsr : r.status with _ | _
          · rw [chat_validated_ongoing ficha m g parsed r hf hg hv hsr]
            exact ⟨[{ role := Role.model, text := r.bot_message }], by simp⟩
          · rw [chat_validated_final ficha m g parsed r hf hg hv hsr]
            exact ⟨[{ role := Role.model, text := r.bot_message }],
              by simp [finalizedRecord]⟩
  · intro ficha m g bm h
    rcases h with h | ⟨fo, h⟩
    · obtain ⟨r, hbm, hsr, heq⟩ := chat_ongoingReply_inv ficha m g bm h
      rw [heq]
    · obtain ⟨r, hbm, hsr, hfo, heq⟩ := chat_finalReply_inv ficha m g bm fo h
      rw [heq, hfo]
      simp [finalizedRecord, hbm]

theorem C8_turn_protocol_witness :
    (chat_with_gemini fichaAna "dor de cabeça" geminiOngoing).2 =
      ChatResponse.ongoingReply "Há quanto tempo?" ∧
    ((chat_with_gemini fichaAna "dor de cabeça" geminiOngoing).1).chat_history =
      fichaAna.chat_history ++ [{ role := Role.user, text := "dor de cabeça" },
        { role := Role.model, text := "Há quanto tempo?" }] :=
  ⟨by decide, C8_turn_protocol.2.2 fichaAna "dor de cabeça" geminiOngoing
    "Há quanto tempo?" (Or.inl (by decide))⟩

/-- C10: the finalizing reply carries the full stored record
(`ficha_de_atendimento`, same value as left in the store, already sealed
`final`); every later call on the closed session instead returns the fixed
closed-session message together with only the stored specialty and
guidance; and the two response shapes are distinct. -/
theorem C10_final_vs_closed_response_shapes :
    (∀ (ficha : Ficha) (m : String) (g : List ChatTurn → GeminiOutcome)
        (bm : String) (fo : Ficha),
      (chat_with_gemini ficha m g).2 = ChatResponse.finalReply bm fo →
      (chat_with_gemini ficha m g).1 = fo ∧
        fo.conversation_status = ConversationStatus.final) ∧
    (∀ (ficha : Ficha) (m : String) (g : List ChatTurn → GeminiOutcome),
      ficha.conversation_status = ConversationStatus.final →
      (chat_with_gemini ficha m g).2 =
        ChatResponse.alreadyFinal closed_session_message
          ficha.especialidade_medica ficha.orientacao_ao_medico) ∧
    (∀ (bm m : String) (fo : Ficha) (e o : Option String),
      ChatResponse.finalReply bm fo ≠ ChatResponse.alreadyFinal m e o) := by
  refine ⟨?_, ?_, ?_⟩
  · intro ficha m g bm fo h
    obtain ⟨r, hbm, hsr, hfo, heq⟩ := chat_finalReply_inv ficha m g bm fo h
    refine ⟨by rw [heq], ?_⟩
    rw [hfo]
    simp [finalizedRecord]
  · intro ficha m g h
    rw [chat_final_entry ficha m g h]
  · intro bm m fo e o
    simp

theorem C10_response_shapes_witness :
    fichaFinalizada.conversation_status = ConversationStatus.final ∧
    (chat_with_gemini fichaFinalizada "oi" geminiOngoing).2 =
      ChatResponse.alreadyFinal closed_session_message
        fichaFinalizada.especialidade_medica
        fichaFinalizada.orientacao_ao_medico :=
  ⟨by decide, C10_final_vs_closed_response_shapes.2.1 fichaFinalizada "oi"
    geminiOngoing (by decide)⟩

/-- C4 counterexample: a failing single-shot call on a fresh session
returns HTTP 500, yet `queixa_paciente` has been overwritten from `""` to
the new complaint — the claim that `queixa_paciente` is unchanged on
failure is false. -/
theorem C4_counterexample_complaint_written_on_failure :
    (processar_queixa fichaAna "dor nas costas" geminiRaisedSS).2 =
      ProcessarResponse.httpError 500 ∧
    fichaAna.queixa_paciente = "" ∧
    ((processar_queixa fichaAna "dor nas costas" geminiRaisedSS).1).queixa_paciente =
      "dor nas costas" := by
  refine ⟨by decide, by decide, by decide⟩

/-- C4 (amended): on any failure (model raised, unparsable JSON, or schema
mismatch) `conversation_status`, `especialidade_medica` and
`orientacao_ao_medico` are unchanged in both modes; in the conversational
turn the only persisted mutation is the already-appended user utterance,
while in the single-shot endpoint `queixa_paciente` has already been
overwritten with the incoming complaint before the model call and is not
rolled back. -/
theorem C4_amended_failure_effects :
    (∀ (ficha : Ficha) (m : String) (g : List ChatTurn → GeminiOutcome)
        (c : Nat),
      (chat_with_gemini ficha m g).2 = ChatResponse.httpError c →
      ((chat_with_gemini ficha m g).1).conversation_status =
          ficha.conversation_status ∧
        ((chat_with_gemini ficha m g).1).especialidade_medica =
          ficha.especialidade_medica ∧
        ((chat_with_gemini ficha m g).1).orientacao_ao_medico =
          ficha.orientacao_ao_medico ∧
        ((chat_with_gemini ficha m g).1).queixa_paciente =
          ficha.queixa_paciente ∧
        ((chat_with_gemini ficha m g).1).chat_history =
          ficha.chat_history ++ [{ role := Role.user, text := m }]) ∧
    (∀ (ficha : Ficha) (q : String) (g : String → GeminiOutcome) (c : Nat),
      (processar_queixa ficha q g).2 = ProcessarResponse.httpError c →
      ((processar_queixa ficha q g).1).conversation_status =
          ficha.conversation_status ∧
        ((processar_queixa ficha q g).1).especialidade_medica =
          ficha.especialidade_medica ∧
        ((processar_queixa ficha q g).1).orientacao_ao_medico =
          ficha.orientacao_ao_medico ∧
        ((processar_queixa ficha q g).1).chat_history = ficha.chat_history ∧
        ((processar_queixa ficha q g).1).queixa_paciente = q) := by
  constructor
  · intro ficha m g c h
    rw [chat_httpError_inv ficha m g c h]
    exact ⟨rfl, rfl, rfl, rfl, rfl⟩
  · intro ficha q g c h
    rw [processar_httpError_inv ficha q g c h]
    exact ⟨rfl, rfl, rfl, rfl, rfl⟩

theorem C4_amended_failure_effects_witness :
    (processar_queixa fichaAna "enxaqueca" geminiRaisedSS).2 =
      ProcessarResponse.httpError 500 ∧
    (((processar_queixa fichaAna "enxaqueca" geminiRaisedSS).1).conversation_status =
        fichaAna.conversation_status ∧
      ((processar_queixa fichaAna "enxaqueca" geminiRaisedSS).1).especialidade_medica =
        fichaAna.especialidade_medica ∧
      ((processar_queixa fichaAna "enxaqueca" geminiRaisedSS).1).orientacao_ao_medico =
        fichaAna.orientacao_ao_medico ∧
      ((processar_queixa fichaAna "enxaqueca" geminiRaisedSS).1).chat_history =
        fichaAna.chat_history ∧
      ((processar_queixa fichaAna "enxaqueca" geminiRaisedSS).1).queixa_paciente =
        "enxaqueca") :=
  ⟨by decide, C4_amended_failure_effects.2 fichaAna "enxaqueca" geminiRaisedSS
    500 (by decide)⟩

/-- C1 counterexample: a reachable record sealed `final` by a
conversational turn still has its `especialidade_medica` and
`orientacao_ao_medico` overwritten by a later successful single-shot
triage call, which never checks `conversation_status` — so "no subsequent
call to any endpoint changes the specialty or guidance note of the record" is
false. -/
theorem C1_counterexample_single_shot_overwrites_final :
    Reachable fichaFinalizada ∧
    fichaFinalizada.conversation_status = ConversationStatus.final ∧
    fichaFinalizada.especialidade_medica = some "Neurologia" ∧
    ((processar_queixa fichaFinalizada "sinto dor no peito" geminiSS).1).especialidade_medica =
      some "Cardiologia" ∧
    ((processar_queixa fichaFinalizada "sinto dor no peito" geminiSS).1).orientacao_ao_medico =
      some "Avaliar dor torácica" := by
  refine ⟨⟨"sessao-1", "Ana", "Rua X", 30,
    [Op.chat "dor de cabeça" geminiFinal], rfl⟩,
    by decide, by decide, by decide, by decide⟩

/-- C1 (amended): once a session is `final`, the conversational turn
leaves the record entirely unchanged, the wearable fetch changes neither
specialty, guidance nor status, the record fetch changes nothing, and no
endpoint ever reverts `conversation_status` to ongoing — but the
single-shot triage endpoint can still overwrite `queixa_paciente`,
`especialidade_medica` and `orientacao_ao_medico`. -/
theorem C1_amended_monotonic_finality (ficha : Ficha)
    (h : ficha.conversation_status = ConversationStatus.final) :
    (∀ (m : String) (g : List ChatTurn → GeminiOutcome),
      (chat_with_gemini ficha m g).1 = ficha) ∧
    ((obter_dados_smartwatch ficha).1).especialidade_medica =
      ficha.especialidade_medica ∧
    ((obter_dados_smartwatch ficha).1).orientacao_ao_medico =
      ficha.orientacao_ao_medico ∧
    ((obter_dados_smartwatch ficha).1).conversation_status =
      ConversationStatus.final ∧
    obter_ficha_completa ficha = ficha ∧
    (∀ (q : String) (g : String → GeminiOutcome),
      ((processar_queixa ficha q g).1).conversation_status =
        ConversationStatus.final) := by
  refine ⟨?_, rfl, rfl, h, rfl, ?_⟩
  · intro m g
    rw [chat_final_entry ficha m g h]
  · intro q g
    rw [processar_conversation_status ficha q g]
    exact h

theorem C1_amended_monotonic_finality_witness :
    fichaFinalizada.conversation_status = ConversationStatus.final ∧
    (chat_with_gemini fichaFinalizada "novo sintoma" geminiOngoing).1 =
      fichaFinalizada ∧
    ((processar_queixa fichaFinalizada "novo sintoma" geminiSS).1).conversation_status =
      ConversationStatus.final :=
  ⟨by decide,
   (C1_amended_monotonic_finality fichaFinalizada (by decide)).1
     "novo sintoma" geminiOngoing,
   (C1_amended_monotonic_finality fichaFinalizada (by decide)).2.2.2.2.2
     "novo sintoma" geminiSS⟩

/-- C2 counterexample: the record reached by one successful single-shot
call on a fresh session has non-empty `especialidade_medica` and
`orientacao_ao_medico` while `conversation_status` is still `"ongoing"`,
refuting the claimed equivalence. -/
theorem C2_counterexample_nonempty_while_ongoing :
    ¬ (∀ ficha : Ficha, Reachable ficha →
        (((∃ s, ficha.especialidade_medica = some s ∧ s ≠ "") ∧
          (∃ s, ficha.orientacao_ao_medico = some s ∧ s ≠ "")) ↔
          ficha.conversation_status = ConversationStatus.final)) := by
  intro hAll
  have h := hAll fichaSingleShot
    ⟨"sessao-1", "Ana", "Rua X", 30,
      [Op.processar "dor de cabeça forte" geminiSS], rfl⟩
  have h2 := h.mp ⟨⟨"Cardiologia", by decide, by decide⟩,
    ⟨"Avaliar dor torácica", by decide, by decide⟩⟩
  exact absurd h2 (by decide)

lemma conv_step_inv (ficha : Ficha) (op : Op)
    (hop : op.isConversational = true)
    (hInv : ficha.conversation_status = ConversationStatus.ongoing →
      ficha.especialidade_medica = some "" ∧
      ficha.orientacao_ao_medico = some "") :
    (applyOp ficha op).conversation_status = ConversationStatus.ongoing →
      (applyOp ficha op).especialidade_medica = some "" ∧
      (applyOp ficha op).orientacao_ao_medico = some "" := by
  cases op with
  | smartwatch => exact fun hst => hInv hst
  | fichaCompleta => exact fun hst => hInv hst
  | processar q g => simp [Op.isConversational] at hop
  | chat m g =>
    simp only [applyOp]
    by_cases hf : ficha.conversation_status = ConversationStatus.final
    · rw [chat_final_entry ficha m g hf]
      exact fun hst => hInv hst
    · rcases hg : g (conversation_for_gemini (appendUser ficha m)) with _ | p
      · rw [chat_raised ficha m g hf hg]
        exact fun hst => hInv hst
      · rcases p with _ | parsed
        · rw [chat_parse_failed ficha m g hf hg]
          exact fun hst => hInv hst
        · rcases hv : ConversationalGeminiResponse.validate parsed with _ | r
          · rw [chat_invalid ficha m g parsed hf hg hv]
            exact fun hst => hInv hst
          · rcases hsr : r.status with _ | _
            · rw [chat_validated_ongoing ficha m g parsed r hf hg hv hsr]
              exact fun hst => hInv hst
            · rw [chat_validated_final ficha m g parsed r hf hg hv hsr]
              intro hst
              simp [finalizedRecord] at hst

lemma conv_runOps_inv (ops : List Op) : ∀ ficha : Ficha,
    (∀ op ∈ ops, op.isConversational = true) →
    (ficha.conversation_status = ConversationStatus.ongoing →
      ficha.especialidade_medica = some "" ∧
      ficha.orientacao_ao_medico = some "") →
    ((runOps ficha ops).conversation_status = ConversationStatus.ongoing →
      (runOps ficha ops).especialidade_medica = some "" ∧
      (runOps ficha ops).orientacao_ao_medico = some "") := by
  induction ops with
  | nil => exact fun ficha _ hInv => hInv
  | cons op rest ih =>
    intro ficha hops hInv
    exact ih (applyOp ficha op)
      (fun o ho => hops o (List.mem_cons_of_mem _ ho))
      (conv_step_inv ficha op (hops op (List.mem_cons_self _ _)) hInv)

/-- C2 (amended): for records reachable through the conversational
endpoints only (session creation, wearable fetch, record fetch,
conversational turns — no single-shot call), `conversation_status =
"ongoing"` implies `especialidade_medica` and `orientacao_ao_medico` are
still the empty string.  The claimed equivalence itself fails in both
directions: the single-shot endpoint writes non-empty values while the
status stays ongoing, and a `final` record may carry null specialty and
guidance because validation accepts a final response without them. -/
theorem C2_amended_ongoing_implies_empty (sid nome endereco : String)
    (idade : Int) (ops : List Op)
    (hops : ∀ op ∈ ops, op.isConversational = true)
    (hst : (runOps (iniciar_atendimento sid nome endereco idade) ops).conversation_status =
      ConversationStatus.ongoing) :
    (runOps (iniciar_atendimento sid nome endereco idade) ops).especialidade_medica =
      some "" ∧
    (runOps (iniciar_atendimento sid nome endereco idade) ops).orientacao_ao_medico =
      some "" :=
  conv_runOps_inv ops (iniciar_atendimento sid nome endereco idade) hops
    (fun _ => ⟨rfl, rfl⟩) hst

theorem C2_amended_ongoing_implies_empty_witness :
    (∀ op ∈ [Op.smartwatch, Op.chat "dor de cabeça" geminiOngoing],
      Op.isConversational op = true) ∧
    (runOps fichaAna [Op.smartwatch, Op.chat "dor de cabeça" geminiOngoing]).conversation_status =
      ConversationStatus.ongoing ∧
    ((runOps fichaAna [Op.smartwatch, Op.chat "dor de cabeça" geminiOngoing]).especialidade_medica =
        some "" ∧
      (runOps fichaAna [Op.smartwatch, Op.chat "dor de cabeça" geminiOngoing]).orientacao_ao_medico =
        some "") := by
  have hops : ∀ op ∈ [Op.smartwatch, Op.chat "dor de cabeça" geminiOngoing],
      Op.isConversational op = true := by
    intro op hop
    simp only [List.mem_cons, List.not_mem_nil, or_false] at hop
    rcases hop with rfl | rfl <;> rfl
  exact ⟨hops, by decide,
    C2_amended_ongoing_implies_empty "sessao-1" "Ana" "Rua X" 30
      [Op.smartwatch, Op.chat "dor de cabeça" geminiOngoing] hops (by decide)⟩

end Triagem
